import Mathlib

/-!
Verification of the y-socket.io specification against a shallow embedding of
`src/server/y-socket-io.ts` (the `YSocketIO` class and the
`GenericPersistenceAdaptor`).

The external yjs merge engine is excluded by the spec (§1) and modelled as an
idempotent, commutative merge: a document state and an update are both finite
sets of opaque operation identifiers, `applyUpdate` is union, and
`encodeStateAsUpdate` (with no state vector) encodes the whole state as one
update.  The socket.io transport is likewise external; connection arrival,
disconnect and middleware dispatch are modelled as explicit events fed to the
embedded handlers.
-/

/-! ## Model of the external yjs library -/

/-- An update: an opaque delta, modelled as a finite set of operation ids. -/
abbrev YUpdate : Type := Finset Nat

/-- The state of a `Y.Doc`, modelled as the set of operations it has merged. -/
abbrev YDocState : Type := Finset Nat

/-- A fresh empty document, `new Y.Doc()`. -/
def newDoc : YDocState := ∅

/-- Model of `Y.applyUpdate doc update`: idempotent commutative merge. -/
def applyUpdate (d : YDocState) (u : YUpdate) : YDocState := d ∪ u

/-- Model of `Y.encodeStateAsUpdate doc` with no state vector: the whole
state of the document encoded as a single update. -/
def encodeStateAsUpdate (d : YDocState) : YUpdate := d

/-- Replaying a stored update log into a fresh empty document, as done inside
`getYDoc` (`updates.forEach(update => Y.applyUpdate(ydoc, update))` on a new
`Y.Doc`). -/
def replayLog (updates : List YUpdate) : YDocState :=
  updates.foldl applyUpdate newDoc

/-! ## The `GenericPersistence` interface (lower-level database boundary)

`GenericPersistence` is the interface the adaptor is generic over; an
implementation lives outside this repository.  Its operations are fallible
(a call may reject), so each is embedded as an `Except`-valued function over
an abstract database state `δ`. -/

structure GenericPersistence (δ : Type) where
  getUpdates : δ → String → Except String (δ × List YUpdate)
  storeUpdate : δ → String → YUpdate → Except String δ
  flushDocument : δ → String → YUpdate → Except String δ

/-! ## The transaction queue (`_transact`)

`_transact` chains every submitted operation onto the single promise `this.tr`
shared by all rooms: each operation awaits the previous chain, runs, has any
failure caught and logged (resolving its slot with `null`), and returns its
slot.  One submission is embedded as `transactStep`; the whole chain applied
to a submission list is `runQueue`. -/

/-- One `_transact(f)` execution step: run `f` on the current database state;
a failure is caught and the slot resolves to `none`, leaving the state as the
operation left it (operations are modelled as atomic: a failed operation
performs no state change). -/
def transactStep {σ ρ : Type} (st : σ) (f : σ → Except String (σ × ρ)) :
    σ × Option ρ :=
  match f st with
  | Except.ok p => (p.1, some p.2)
  | Except.error _ => (st, none)

/-- The promise chain `this.tr` applied to a list of submitted operations, in
submission order: the embedding of repeated `_transact` calls. -/
def runQueue {σ ρ : Type} (st : σ) :
    List (σ → Except String (σ × ρ)) → σ × List (Option ρ)
  | [] => (st, [])
  | f :: fs =>
    let p := transactStep st f
    let q := runQueue p.1 fs
    (q.1, p.2 :: q.2)

/-! ## The `GenericPersistenceAdaptor` operations -/

/-- The closure passed to `_transact` by `GenericPersistenceAdaptor.getYDoc`:
read all updates for `docName`, replay them into a fresh document inside a
transaction, and if `updates.length > trimSize` write back one consolidated
snapshot `Y.encodeStateAsUpdate(ydoc)` via `db.flushDocument`.  A rejection of
either database call propagates out of the closure (to be caught by
`_transact`). -/
def getYDocBody {δ : Type} (gp : GenericPersistence δ) (docName : String)
    (trimSize : Nat) (d : δ) : Except String (δ × YDocState) :=
  match gp.getUpdates d docName with
  | Except.error e => Except.error e
  | Except.ok du =>
    let updates := du.2
    let ydoc := replayLog updates
    if updates.length > trimSize then
      match gp.flushDocument du.1 docName (encodeStateAsUpdate ydoc) with
      | Except.error e => Except.error e
      | Except.ok d2 => Except.ok (d2, ydoc)
    else Except.ok (du.1, ydoc)

/-- `GenericPersistenceAdaptor.getYDoc(docName, trimSize)`: runs the body
through the transaction queue; `if (dbdoc) { return dbdoc } return new
Y.Doc()` — a caught failure (null slot) yields a fresh empty document. -/
def adaptorGetYDoc {δ : Type} (gp : GenericPersistence δ) (docName : String)
    (trimSize : Nat) (d : δ) : δ × YDocState :=
  match transactStep d (getYDocBody gp docName trimSize) with
  | (d1, some ydoc) => (d1, ydoc)
  | (d1, none) => (d1, newDoc)

/-- `GenericPersistenceAdaptor.flushDocument(docName)`: `await
this.getYDoc(docName, 0)` — the load path with threshold zero, result
discarded. -/
def adaptorFlushDocument {δ : Type} (gp : GenericPersistence δ)
    (docName : String) (d : δ) : δ :=
  (adaptorGetYDoc gp docName 0 d).1

/-- `GenericPersistenceAdaptor.storeUpdate(docName, update)`: `await
this._transact(db => db.storeUpdate(docName, update))`. -/
def adaptorStoreUpdate {δ : Type} (gp : GenericPersistence δ)
    (docName : String) (u : YUpdate) (d : δ) : δ :=
  (transactStep d (fun db =>
    match gp.storeUpdate db docName u with
    | Except.ok d1 => Except.ok (d1, ())
    | Except.error e => Except.error e)).1

/-! ## Concrete database instantiations used to observe the adaptor

`RecDB` is a canonical `GenericPersistence` implementation following the doc
comments of the interface (`getUpdates` returns the stored log, `storeUpdate`
appends one update, `flushDocument` stores the complete single state), and it
additionally records every write it receives, so that theorems can speak
about exactly which writes an adaptor operation performed.  `failGP` is an
implementation whose every operation rejects. -/

/-- A write call received by the underlying database. -/
inductive DBWrite where
  | storeUpdate (docName : String) (u : YUpdate)
  | flushDocument (docName : String) (state : YUpdate)
deriving DecidableEq

/-- Association-list lookup of a document's stored log (missing name: empty
log). -/
def lookupLog (logs : List (String × List YUpdate)) (n : String) :
    List YUpdate :=
  ((logs.find? (fun p => p.1 == n)).map Prod.snd).getD []

/-- Replace (or create) the stored log of one document name. -/
def setLog : List (String × List YUpdate) → String → List YUpdate →
    List (String × List YUpdate)
  | [], n, l => [(n, l)]
  | p :: ps, n, l => if p.1 = n then (n, l) :: ps else p :: setLog ps n l

/-- Recording database state: per-name logs plus the trace of writes. -/
structure RecDB where
  logs : List (String × List YUpdate)
  writes : List DBWrite
deriving DecidableEq

/-- The canonical recording implementation of `GenericPersistence`. -/
def recGP : GenericPersistence RecDB where
  getUpdates d n := Except.ok (d, lookupLog d.logs n)
  storeUpdate d n u :=
    Except.ok ⟨setLog d.logs n (lookupLog d.logs n ++ [u]),
               d.writes ++ [DBWrite.storeUpdate n u]⟩
  flushDocument d n s :=
    Except.ok ⟨setLog d.logs n [s], d.writes ++ [DBWrite.flushDocument n s]⟩

/-- An implementation whose every database call rejects. -/
def failGP : GenericPersistence Unit where
  getUpdates _ _ := Except.error "db failure"
  storeUpdate _ _ _ := Except.error "db failure"
  flushDocument _ _ _ := Except.error "db failure"

/-! ## The `YSocketIO` lifecycle model

The session registry and document lifecycle from `y-socket-io.ts`.  A
`Document` carries its room name, an identity (object identities are modelled
by an allocation counter), and its `gc` flag.  Observable emissions
(`document-loaded`, `all-document-connections-closed`, `document-destroy`) and
the calls into the persistence layer (`bindState`, `writeState`) are recorded
as events.  The state is parametric in the underlying database type `δ` of
the configured persistence provider. -/

/-- A `Document` instance: room name, object identity, `gc` flag. -/
structure LDoc where
  name : String
  id : Nat
  gc : Bool
deriving DecidableEq

/-- Observable lifecycle events and persistence-layer calls. -/
inductive LEvent where
  | documentLoaded (id : Nat)
  | allConnectionsClosed (id : Nat)
  | documentDestroy (id : Nat)
  | bindStateCalled (docName : String)
  | writeStateCalled (docName : String)
deriving DecidableEq

/-- The `YSocketIO` instance state: the `_documents` registry (an association
list keyed by room name, modelling the `Map`), the allocation counter for
document identities, the emitted event trace, and the provider database. -/
structure LifecycleState (δ : Type) where
  documents : List (String × LDoc)
  nextId : Nat
  events : List LEvent
  db : δ
deriving DecidableEq

/-- Registry lookup, `this._documents.get(name)`. -/
def lookupDoc (documents : List (String × LDoc)) (n : String) : Option LDoc :=
  (documents.find? (fun p => p.1 == n)).map Prod.snd

/-- Registry insertion/overwrite, `this._documents.set(name, doc)` (also used
for the in-place mutation of a cached document's `gc` field, which is visible
through the registry because the registry stores the same object). -/
def setDoc : List (String × LDoc) → String → LDoc → List (String × LDoc)
  | [], n, d => [(n, d)]
  | p :: ps, n, d => if p.1 = n then (n, d) :: ps else p :: setDoc ps n d

/-- Registry removal, `this._documents.delete(name)`. -/
def deleteDoc (documents : List (String × LDoc)) (n : String) :
    List (String × LDoc) :=
  documents.filter (fun p => !(p.1 == n))

/-- First phase of `initDocument` on a registry miss: everything up to and
including the call that suspends — `new Document(name, namespace, ...)`,
`doc.gc = gc`, the `!this._documents.has(name)` check (false), and, when a
persistence provider is configured, the call to
`this.persistence.bindState(name, doc)` whose `await` is the suspension
point.  The registry is not yet updated here. -/
def initDocPhase1 {δ : Type} (persistenceConfigured : Bool)
    (st : LifecycleState δ) (name : String) (gc : Bool) :
    LifecycleState δ × LDoc :=
  let d : LDoc := ⟨name, st.nextId, gc⟩
  (⟨st.documents, st.nextId + 1,
    st.events ++ (if persistenceConfigured
                  then [LEvent.bindStateCalled name] else []),
    st.db⟩, d)

/-- Second phase of `initDocument` on a registry miss, after the `await`
resumes: `this._documents.set(name, doc)` and `this.emit('document-loaded',
[doc])`. -/
def initDocPhase2 {δ : Type} (st : LifecycleState δ) (d : LDoc) :
    LifecycleState δ :=
  ⟨setDoc st.documents d.name d, st.nextId,
   st.events ++ [LEvent.documentLoaded d.id], st.db⟩

/-- `initDocument(name, namespace, gc)` run to completion (no interleaving
with other handlers).  `gcOpt` is `this.configuration?.gcEnabled`; the `gc`
parameter defaults to `true` when it is absent.  On a registry hit the cached
document's `gc` flag is overwritten in place and the cached instance is
returned; on a miss the two phases run back to back. -/
def initDocument {δ : Type} (persistenceConfigured : Bool)
    (st : LifecycleState δ) (name : String) (gcOpt : Option Bool) :
    LifecycleState δ × LDoc :=
  let gc := gcOpt.getD true
  match lookupDoc st.documents name with
  | some d =>
    let d1 : LDoc := ⟨d.name, d.id, gc⟩
    (⟨setDoc st.documents name d1, st.nextId, st.events, st.db⟩, d1)
  | none =>
    let p := initDocPhase1 persistenceConfigured st name gc
    (initDocPhase2 p.1 p.2, p.2)

/-- Modelled from the spec: `Document.destroy` (the `Document` class of
`src/server/document.ts` is not part of the provided sources) tears down the
document's remaining connections and invokes the `onDestroy` callback wired
in `initDocument`, which removes the registry entry for `doc.name` and emits
`document-destroy` (source lines 147-150 of `y-socket-io.ts`). -/
def destroyDocument {δ : Type} (st : LifecycleState δ) (doc : LDoc) :
    LifecycleState δ :=
  ⟨deleteDoc st.documents doc.name, st.nextId,
   st.events ++ [LEvent.documentDestroy doc.id], st.db⟩

/-- The `disconnect` handler of `initSocketListeners`, for a socket of
`doc`'s room: `remaining` is `(await socket.nsp.fetchSockets()).length`, the
number of connections left in the room after this disconnect.  If none
remain, emit `all-document-connections-closed`; then, only when a persistence
provider is configured, `await this.persistence.writeState(doc.name, doc)`
(which is `provider.flushDocument(doc.name)`, here the bundled adaptor over
`gp`) followed by `await doc.destroy()`. -/
def handleDisconnect {δ : Type} (gp : Option (GenericPersistence δ))
    (st : LifecycleState δ) (doc : LDoc) (remaining : Nat) :
    LifecycleState δ :=
  if remaining = 0 then
    let st1 : LifecycleState δ :=
      ⟨st.documents, st.nextId,
       st.events ++ [LEvent.allConnectionsClosed doc.id], st.db⟩
    match gp with
    | some g =>
      let st2 : LifecycleState δ :=
        ⟨st1.documents, st1.nextId,
         st1.events ++ [LEvent.writeStateCalled doc.name],
         adaptorFlushDocument g doc.name st1.db⟩
      destroyDocument st2 doc
    | none => st1
  else st

/-- Closing `k` of a room's `n` connections one at a time: the i-th close
leaves `n - i` connections, and each close runs the `disconnect` handler with
that remaining count. -/
def closeK {δ : Type} (gp : Option (GenericPersistence δ)) (doc : LDoc)
    (n : Nat) : Nat → LifecycleState δ → LifecycleState δ
  | 0, st => st
  | k + 1, st => handleDisconnect gp (closeK gp doc n k st) doc (n - (k + 1))

/-! ## The authentication middleware -/

/-- What the middleware registered by `initialize` does with a connection
attempt: call `next()` (accepted), call `next(new Error('Unauthorized'))`
(rejected with the Unauthorized signal), or — when the `await` of the
authenticate callback throws — return without invoking either continuation,
so the connection is neither accepted nor explicitly rejected. -/
inductive MiddlewareOutcome where
  | accepted
  | rejectedUnauthorized
  | noResponse
deriving DecidableEq

/-- The middleware of `initialize` (source lines 98-102): with no configured
`authenticate` callback, `next()`; otherwise `next()` exactly when the
callback resolves truthy, `next(new Error('Unauthorized'))` when it resolves
falsy, and neither continuation when it rejects (the thrown `await` aborts
the async middleware before any `next` call).  The handshake is opaque and
modelled as a `Nat`. -/
def authMiddleware (auth : Option (Nat → Except String Bool))
    (handshake : Nat) : MiddlewareOutcome :=
  match auth with
  | none => MiddlewareOutcome.accepted
  | some f =>
    match f handshake with
    | Except.ok true => MiddlewareOutcome.accepted
    | Except.ok false => MiddlewareOutcome.rejectedUnauthorized
    | Except.error _ => MiddlewareOutcome.noResponse

/-- A connection attempt end to end: the transport fires the `connection`
event (which resolves the room's document via `initDocument`) only for
connections the middleware accepted; otherwise the server state is
untouched. -/
def processConnection {δ : Type} (auth : Option (Nat → Except String Bool))
    (persistenceConfigured : Bool) (st : LifecycleState δ) (handshake : Nat)
    (roomName : String) (gcOpt : Option Bool) : LifecycleState δ :=
  match authMiddleware auth handshake with
  | MiddlewareOutcome.accepted =>
    (initDocument persistenceConfigured st roomName gcOpt).1
  | _ => st

/-! ## Theorems about the persistence adaptor -/

/-- C8: for every update log, the consolidated snapshot that compaction
writes (`Y.encodeStateAsUpdate` of the document obtained by replaying every
log entry in order into a fresh document — exactly the payload passed to
`db.flushDocument` in `getYDoc`), when replayed alone into another fresh
empty document, reproduces exactly the converged state of replaying the
original full log. -/
theorem consolidated_snapshot_replay_equivalent (updates : List YUpdate) :
    replayLog [encodeStateAsUpdate (replayLog updates)] = replayLog updates := by
  simp [replayLog, applyUpdate, encodeStateAsUpdate, newDoc]

/-- C10: `getYDoc` never rejects: whenever the transacted body (the
`getUpdates` read or the consolidation write) fails, the failure is caught by
`_transact`, the slot resolves to `null`, and `getYDoc` still returns —
yielding a freshly created empty document, indistinguishable from a
genuinely empty load. -/
theorem getYDoc_never_rejects {δ : Type} (gp : GenericPersistence δ)
    (docName : String) (trimSize : Nat) (d : δ) (e : String)
    (herr : getYDocBody gp docName trimSize d = Except.error e) :
    adaptorGetYDoc gp docName trimSize d = (d, newDoc) := by
  simp [adaptorGetYDoc, transactStep, herr]

theorem getYDoc_never_rejects_w :
    getYDocBody failGP "doc" 0 () = Except.error "db failure" ∧
    adaptorGetYDoc failGP "doc" 0 () = ((), newDoc) :=
  ⟨rfl, getYDoc_never_rejects failGP "doc" 0 () "db failure" rfl⟩

/-- C3: the compaction condition of a load is strictly greater-than the
threshold: against the canonical recording database, `getYDoc` writes back
exactly one consolidated snapshot when the stored log is strictly longer
than `trimSize` and performs no write otherwise — in particular a log of
exactly `trimSize` entries triggers no consolidation and a log of
`trimSize + 1` entries triggers exactly one consolidated write. -/
theorem getYDoc_compaction_strictly_greater
    (logs : List (String × List YUpdate)) (w0 : List DBWrite) (n : String)
    (trimSize : Nat) :
    ((adaptorGetYDoc recGP n trimSize ⟨logs, w0⟩).1).writes
      = w0 ++ (if trimSize < (lookupLog logs n).length
               then [DBWrite.flushDocument n
                      (encodeStateAsUpdate (replayLog (lookupLog logs n)))]
               else []) := by
  by_cases h : trimSize < (lookupLog logs n).length
  · simp [adaptorGetYDoc, transactStep, getYDocBody, recGP, gt_iff_lt, h]
  · simp [adaptorGetYDoc, transactStep, getYDocBody, recGP, gt_iff_lt, h]

/-- C2 counterexample: `flushDocument` on a document whose stored log has
zero entries performs no write at all — `getYDoc(docName, 0)` checks
`updates.length > 0`, which fails for an empty log — refuting that
`flushDocument` always writes exactly one consolidated snapshot regardless
of log length. -/
theorem flushDocument_empty_log_writes_nothing :
    (adaptorFlushDocument recGP "doc" ⟨[], []⟩).writes = [] := rfl

/-- C2 amended: `flushDocument` performs the load path with threshold zero,
and whenever the stored log has at least one entry it writes back exactly
one consolidated snapshot representing the replayed state (a log with zero
entries produces no write). -/
theorem flushDocument_nonempty_log_single_write
    (logs : List (String × List YUpdate)) (w0 : List DBWrite) (n : String)
    (hne : lookupLog logs n ≠ []) :
    (adaptorFlushDocument recGP n ⟨logs, w0⟩).writes
      = w0 ++ [DBWrite.flushDocument n
                (encodeStateAsUpdate (replayLog (lookupLog logs n)))] := by
  have h : 0 < (lookupLog logs n).length := List.length_pos.mpr hne
  simp [adaptorFlushDocument, adaptorGetYDoc, transactStep, getYDocBody,
        recGP, gt_iff_lt, h]

theorem flushDocument_nonempty_log_single_write_w :
    lookupLog [("doc", [({0} : Finset Nat)])] "doc" ≠ [] ∧
    (adaptorFlushDocument recGP "doc"
        ⟨[("doc", [({0} : Finset Nat)])], []⟩).writes
      = [] ++ [DBWrite.flushDocument "doc"
                (encodeStateAsUpdate (replayLog
                  (lookupLog [("doc", [({0} : Finset Nat)])] "doc")))] :=
  ⟨by decide,
   flushDocument_nonempty_log_single_write [("doc", [{0}])] [] "doc"
     (by decide)⟩

/-! ## Theorems about the transaction queue -/

/-- Splitting the submission list splits the execution of the promise chain:
the operations before the split run first, then the rest from the state they
produced, with the result slots concatenated in the same order. -/
theorem runQueue_append {σ ρ : Type} (st : σ)
    (l1 l2 : List (σ → Except String (σ × ρ))) :
    runQueue st (l1 ++ l2)
      = ((runQueue (runQueue st l1).1 l2).1,
         (runQueue st l1).2 ++ (runQueue (runQueue st l1).1 l2).2) := by
  induction l1 generalizing st with
  | nil => simp [runQueue]
  | cons f fs ih => simp [runQueue, ih]

/-- C4: the single global queue executes submitted operations strictly in
submission order, one at a time: however the submission list is split around
one operation, that operation runs exactly once, on exactly the state left
by all earlier submissions, before every later submission — regardless of
which document names the operations target (the operations are arbitrary,
and the queue is one promise chain shared across all names). -/
theorem queue_executes_in_submission_order {σ ρ : Type} (st : σ)
    (ops pre post : List (σ → Except String (σ × ρ)))
    (op : σ → Except String (σ × ρ))
    (hsplit : ops = pre ++ op :: post) :
    runQueue st ops
      = ((runQueue (transactStep (runQueue st pre).1 op).1 post).1,
         (runQueue st pre).2
           ++ (transactStep (runQueue st pre).1 op).2
           :: (runQueue (transactStep (runQueue st pre).1 op).1 post).2) := by
  subst hsplit
  rw [runQueue_append]
  simp [runQueue]

/-- C5: a queued operation that fails has its failure caught: its slot
resolves to `none` instead of propagating, and every subsequently submitted
operation still executes from the very state the failed operation received,
producing exactly the results it would produce had the failed operation not
been submitted — the queue never stalls or aborts. -/
theorem queue_failure_isolation {σ ρ : Type} (st : σ)
    (pre post : List (σ → Except String (σ × ρ)))
    (f : σ → Except String (σ × ρ)) (e : String)
    (hf : f (runQueue st pre).1 = Except.error e) :
    runQueue st (pre ++ f :: post)
      = ((runQueue (runQueue st pre).1 post).1,
         (runQueue st pre).2
           ++ none :: (runQueue (runQueue st pre).1 post).2) := by
  rw [runQueue_append]
  simp [runQueue, transactStep, hf]

/-- An initially empty recording database. -/
def dbEmpty : RecDB := ⟨[], []⟩

/-- Scenario operation O1: `storeUpdate` for room `a` (the closure passed to
`_transact` by `adaptorStoreUpdate`). -/
def qStoreA1 : RecDB → Except String (RecDB × Unit) := fun d =>
  match recGP.storeUpdate d "a" {1} with
  | Except.ok d1 => Except.ok (d1, ())
  | Except.error e => Except.error e

/-- Scenario operation O2: `flushDocument` for room `b` (the `getYDoc` body
with threshold zero, result discarded). -/
def qFlushB : RecDB → Except String (RecDB × Unit) := fun d =>
  match getYDocBody recGP "b" 0 d with
  | Except.ok p => Except.ok (p.1, ())
  | Except.error e => Except.error e

/-- Scenario operation O3: a second `storeUpdate` for room `a`. -/
def qStoreA2 : RecDB → Except String (RecDB × Unit) := fun d =>
  match recGP.storeUpdate d "a" {2} with
  | Except.ok d1 => Except.ok (d1, ())
  | Except.error e => Except.error e

/-- A queued operation that rejects outright. -/
def qFail : RecDB → Except String (RecDB × Unit) := fun _ =>
  Except.error "flush failed"

theorem queue_executes_in_submission_order_w :
    [qStoreA1, qFlushB, qStoreA2] = [qStoreA1] ++ qFlushB :: [qStoreA2] ∧
    runQueue dbEmpty [qStoreA1, qFlushB, qStoreA2]
      = ((runQueue (transactStep (runQueue dbEmpty [qStoreA1]).1
            qFlushB).1 [qStoreA2]).1,
         (runQueue dbEmpty [qStoreA1]).2
           ++ (transactStep (runQueue dbEmpty [qStoreA1]).1 qFlushB).2
           :: (runQueue (transactStep (runQueue dbEmpty [qStoreA1]).1
                 qFlushB).1 [qStoreA2]).2) :=
  ⟨rfl,
   queue_executes_in_submission_order dbEmpty [qStoreA1, qFlushB, qStoreA2]
     [qStoreA1] [qStoreA2] qFlushB rfl⟩

theorem queue_failure_isolation_w :
    qFail (runQueue dbEmpty [qStoreA1]).1 = Except.error "flush failed" ∧
    runQueue dbEmpty ([qStoreA1] ++ qFail :: [qStoreA2])
      = ((runQueue (runQueue dbEmpty [qStoreA1]).1 [qStoreA2]).1,
         (runQueue dbEmpty [qStoreA1]).2
           ++ none :: (runQueue (runQueue dbEmpty [qStoreA1]).1
                        [qStoreA2]).2) :=
  ⟨rfl,
   queue_failure_isolation dbEmpty [qStoreA1] [qStoreA2] qFail
     "flush failed" rfl⟩

/-! ## Theorems about the document lifecycle -/

/-- Looking up a name right after setting it returns exactly the document
that was set. -/
theorem lookupDoc_setDoc (documents : List (String × LDoc)) (n : String)
    (d : LDoc) : lookupDoc (setDoc documents n d) n = some d := by
  induction documents with
  | nil => simp [setDoc, lookupDoc]
  | cons p ps ih =>
    by_cases h : p.1 = n
    · simp [setDoc, lookupDoc, h]
    · simpa [setDoc, lookupDoc, h] using ih

/-- C9: resolving a room name whose document already exists overwrites the
cached document's `gc` flag in place with the resolving connection's flag
(last-writer-wins), returns that same instance (same identity), leaves the
registry holding exactly it, and an unspecified flag defaults to `true`. -/
theorem initDocument_gc_last_writer_wins {δ : Type} (p : Bool)
    (st : LifecycleState δ) (name : String) (gcOpt : Option Bool) (d : LDoc)
    (hd : lookupDoc st.documents name = some d) :
    ((initDocument p st name gcOpt).2).gc = gcOpt.getD true ∧
    ((initDocument p st name gcOpt).2).id = d.id ∧
    lookupDoc ((initDocument p st name gcOpt).1).documents name
      = some (initDocument p st name gcOpt).2 ∧
    ((initDocument p st name none).2).gc = true := by
  refine ⟨?_, ?_, ?_, ?_⟩ <;> simp [initDocument, hd, lookupDoc_setDoc]

def c9doc : LDoc := ⟨"room", 0, true⟩

def c9st : LifecycleState Unit := ⟨[("room", c9doc)], 1, [], ()⟩

theorem initDocument_gc_last_writer_wins_w :
    lookupDoc c9st.documents "room" = some c9doc ∧
    (((initDocument false c9st "room" (some false)).2).gc
        = (some false).getD true ∧
     ((initDocument false c9st "room" (some false)).2).id = c9doc.id ∧
     lookupDoc ((initDocument false c9st "room" (some false)).1).documents
         "room" = some (initDocument false c9st "room" (some false)).2 ∧
     ((initDocument false c9st "room" none).2).gc = true) :=
  ⟨by decide,
   initDocument_gc_last_writer_wins false c9st "room" (some false) c9doc
     (by decide)⟩

/-- C7 amended: when resolves of a room name do not overlap, a resolve that
finds an existing document returns exactly the cached instance (same
identity), leaves every other part of the state untouched — no new identity
is allocated, no `bindState` call is made (no re-binding of persistence), no
`document-loaded` is emitted — and only that name's registry entry is
rewritten (with the cached document under its updated `gc` flag).
Overlapping first resolves of the same name can instead create two distinct
instances; see the accompanying counterexample. -/
theorem initDocument_existing_returns_cached {δ : Type} (p : Bool)
    (st : LifecycleState δ) (name : String) (gcOpt : Option Bool) (d : LDoc)
    (hd : lookupDoc st.documents name = some d) :
    initDocument p st name gcOpt
      = (⟨setDoc st.documents name ⟨d.name, d.id, gcOpt.getD true⟩,
          st.nextId, st.events, st.db⟩,
         ⟨d.name, d.id, gcOpt.getD true⟩) := by
  simp [initDocument, hd]

def c7doc : LDoc := ⟨"room", 5, true⟩

def c7st : LifecycleState Unit := ⟨[("room", c7doc)], 6, [], ()⟩

theorem initDocument_existing_returns_cached_w :
    lookupDoc c7st.documents "room" = some c7doc ∧
    initDocument true c7st "room" (some false)
      = (⟨setDoc c7st.documents "room"
            ⟨c7doc.name, c7doc.id, (some false).getD true⟩,
          c7st.nextId, c7st.events, c7st.db⟩,
         ⟨c7doc.name, c7doc.id, (some false).getD true⟩) :=
  ⟨by decide,
   initDocument_existing_returns_cached true c7st "room" (some false) c7doc
     (by decide)⟩

/-- The empty server state, with a persistence provider configured. -/
def raceS0 : LifecycleState Unit := ⟨[], 0, [], ()⟩

/-- Connection A's `initDocument("room")` up to its suspension: the registry
misses, a document is created, and `bindState` is called (its `await` is the
suspension point — reachable because persistence is configured). -/
def raceA : LifecycleState Unit × LDoc := initDocPhase1 true raceS0 "room" true

/-- Connection B's `initDocument("room")` up to the same suspension point,
interleaved while A is still suspended: the registry still misses (A has not
yet inserted), so B creates a second document. -/
def raceB : LifecycleState Unit × LDoc := initDocPhase1 true raceA.1 "room" true

/-- A resumes: inserts its document and emits `document-loaded`. -/
def raceS3 : LifecycleState Unit := initDocPhase2 raceB.1 raceA.2

/-- B resumes: overwrites the registry entry with its own document and emits
a second `document-loaded`. -/
def raceS4 : LifecycleState Unit := initDocPhase2 raceS3 raceB.2

/-- C7 counterexample: the uniqueness invariant is violated by two
overlapping first connections to the same room when a persistence provider
is configured.  `initDocument` checks `!this._documents.has(name)` and then
suspends at `await this.persistence.bindState(name, doc)` before inserting
into the registry, so a second connection arriving during the suspension
also misses the registry: two distinct `Document` instances are created for
one name, the two connections hold different instances, `document-loaded` is
emitted twice, and the later instance silently overwrites the earlier one in
the registry. -/
theorem overlapping_initDocument_two_instances :
    lookupDoc raceS0.documents "room" = none ∧
    lookupDoc raceA.1.documents "room" = none ∧
    raceA.2 ≠ raceB.2 ∧
    lookupDoc raceS4.documents "room" = some raceB.2 ∧
    raceS4.events = [LEvent.bindStateCalled "room",
                     LEvent.bindStateCalled "room",
                     LEvent.documentLoaded 0,
                     LEvent.documentLoaded 1] := by
  decide

/-! ## Theorems about authentication -/

/-- An authenticate callback whose promise rejects. -/
def failAuth : Nat → Except String Bool := fun _ =>
  Except.error "auth backend down"

/-- C6 counterexample: when the configured authenticate callback rejects,
the middleware's `await` throws before either `next()` or
`next(new Error('Unauthorized'))` is reached, so the connection is not
closed with an Unauthorized signal — no continuation is invoked at all,
refuting that a rejecting predicate yields the Unauthorized signal. -/
theorem auth_rejection_gives_no_unauthorized_signal :
    authMiddleware (some failAuth) 0 = MiddlewareOutcome.noResponse ∧
    MiddlewareOutcome.noResponse ≠ MiddlewareOutcome.rejectedUnauthorized :=
  ⟨rfl, by decide⟩

/-- C6 amended: with no configured predicate the connection is accepted;
when the predicate resolves `false` the connection is rejected with the
Unauthorized signal; when it rejects, neither continuation is invoked (the
connection is neither accepted nor explicitly rejected).  In both
non-accepting cases the connection never reaches the `connection` handler,
so no document is created or accessed (the server state is untouched). -/
theorem auth_gate {δ : Type} (p : Bool) (st : LifecycleState δ)
    (f : Nat → Except String Bool) (handshake : Nat) (roomName : String)
    (gcOpt : Option Bool) (hne : f handshake ≠ Except.ok true) :
    processConnection (some f) p st handshake roomName gcOpt = st ∧
    authMiddleware (some f) handshake
      = (match f handshake with
         | Except.ok _ => MiddlewareOutcome.rejectedUnauthorized
         | Except.error _ => MiddlewareOutcome.noResponse) ∧
    authMiddleware none handshake = MiddlewareOutcome.accepted := by
  cases hf : f handshake with
  | ok b =>
    cases b with
    | true => exact absurd hf hne
    | false => simp [processConnection, authMiddleware, hf]
  | error e => simp [processConnection, authMiddleware, hf]

/-- An authenticate callback that resolves `false`. -/
def denyAuth : Nat → Except String Bool := fun _ => Except.ok false

def c6st : LifecycleState Unit := ⟨[], 0, [], ()⟩

theorem auth_gate_w :
    denyAuth 0 ≠ Except.ok true ∧
    (processConnection (some denyAuth) false c6st 0 "room" none = c6st ∧
     authMiddleware (some denyAuth) 0
       = (match denyAuth 0 with
          | Except.ok _ => MiddlewareOutcome.rejectedUnauthorized
          | Except.error _ => MiddlewareOutcome.noResponse) ∧
     authMiddleware none 0 = MiddlewareOutcome.accepted) :=
  ⟨by simp [denyAuth], auth_gate false c6st denyAuth 0 "room" none
    (by simp [denyAuth])⟩

/-! ## Theorems about the refcount lifecycle -/

/-- Closing fewer connections than the room has never changes the server
state: every close that leaves at least one connection finds
`fetchSockets().length` nonzero and does nothing. -/
theorem closeK_early {δ : Type} (g : GenericPersistence δ)
    (st : LifecycleState δ) (doc : LDoc) (n : Nat) :
    ∀ k, k < n → closeK (some g) doc n k st = st := by
  intro k
  induction k with
  | zero => intro _; rfl
  | succ k ih =>
    intro hk
    have h1 : closeK (some g) doc n k st = st := ih (Nat.lt_of_succ_lt hk)
    have hrem : ¬(n - (k + 1) = 0) := by omega
    simp [closeK, h1, handleDisconnect, hrem]

/-- C1 amended: with a persistence provider configured (flushing through the
bundled adaptor over an arbitrary — possibly always-failing — database),
closing a room's `n` connections one at a time never destroys the document
until the last close; the last close emits
`all-document-connections-closed`, flushes (its outcome irrelevant: a
database failure is caught inside the transaction queue), and then destroys:
exactly one `document-destroy` event is emitted and the room's registry
entry is removed.  Without a configured provider the destroy branch is never
reached (see the counterexample). -/
theorem refcount_destroy_on_last_close {δ : Type} (g : GenericPersistence δ)
    (st : LifecycleState δ) (doc : LDoc) (n k : Nat) (hk : k ≤ n)
    (hn : 0 < n) :
    closeK (some g) doc n k st
      = if k < n then st
        else ⟨deleteDoc st.documents doc.name, st.nextId,
              st.events ++ [LEvent.allConnectionsClosed doc.id,
                            LEvent.writeStateCalled doc.name,
                            LEvent.documentDestroy doc.id],
              adaptorFlushDocument g doc.name st.db⟩ := by
  by_cases h : k < n
  · rw [if_pos h]
    exact closeK_early g st doc n k h
  · rw [if_neg h]
    have hkn : k = n := by omega
    subst hkn
    cases k with
    | zero => omega
    | succ m =>
      have h1 : closeK (some g) doc (m + 1) m st = st :=
        closeK_early g st doc (m + 1) m (Nat.lt_succ_self m)
      have hrem : (m + 1) - (m + 1) = 0 := by omega
      simp [closeK, h1, hrem, handleDisconnect, destroyDocument]

def c1doc : LDoc := ⟨"room", 0, true⟩

def c1st : LifecycleState Unit := ⟨[("room", c1doc)], 1, [], ()⟩

theorem refcount_destroy_on_last_close_w :
    3 ≤ 3 ∧ (0 : Nat) < 3 ∧
    closeK (some failGP) c1doc 3 3 c1st
      = if 3 < 3 then c1st
        else ⟨deleteDoc c1st.documents c1doc.name, c1st.nextId,
              c1st.events ++ [LEvent.allConnectionsClosed c1doc.id,
                              LEvent.writeStateCalled c1doc.name,
                              LEvent.documentDestroy c1doc.id],
              adaptorFlushDocument failGP c1doc.name c1st.db⟩ :=
  ⟨by decide, by decide,
   refcount_destroy_on_last_close failGP c1st c1doc 3 3 (by decide)
     (by decide)⟩

/-- C1 counterexample: with no persistence provider configured, the last
close of a room's only connection emits `all-document-connections-closed`
but never destroys the document — `initSocketListeners` reaches
`doc.destroy()` only inside `if (this.persistence != null)` — so the
document stays in the registry and no `document-destroy` event is emitted,
refuting that destruction is unconditional on whether a persistence provider
is configured. -/
theorem no_persistence_last_close_no_destroy :
    closeK (none : Option (GenericPersistence Unit)) c1doc 1 1 c1st
      = ⟨[("room", c1doc)], 1, [LEvent.allConnectionsClosed 0], ()⟩ ∧
    lookupDoc (closeK (none : Option (GenericPersistence Unit)) c1doc 1 1
        c1st).documents "room" = some c1doc := by
  decide
